import Mathlib

/-!
Shallow embedding of the data pipeline of `src/app.py` (a pandas/Streamlit
catalog browser): identifier resolution, credential resolution, sheet
loading, column normalization, schema enforcement and the two filter
pipelines.  Python strings are `String`, pandas DataFrames are a record of
column names plus indexed rows (the pandas row index is made explicit),
cell values are a small sum type, and Python object identity / in-place
mutation is modelled by an explicit store of DataFrames.
-/

/-- Cell values as delivered by the spreadsheet client: strings, integers
or booleans (get_all_records produces these; floats never reach the
pipeline untouched because the claims exercise string cells). -/
inductive Value where
  | vstr (s : String)
  | vint (n : Int)
  | vbool (b : Bool)
deriving DecidableEq

/-- Python str(...) applied to a cell value, as pandas astype(str) does. -/
def pyStr : Value → String
  | .vstr s => s
  | .vint n => toString n
  | .vbool b => if b then "True" else "False"

/-- A pandas DataFrame: column names plus rows, each row carrying its
pandas index label (re-sequenced by reset_index). -/
structure DF where
  cols : List String
  rows : List (Nat × List Value)
deriving DecidableEq

/-- pd.DataFrame(): zero rows and no columns. -/
def DF.empty : DF := ⟨[], []⟩

/-- ASCII lower-casing of one character, as Python str.lower on the ASCII
range (non-ASCII characters are kept as written in the data). -/
def lowerChar (c : Char) : Char :=
  if 'A' ≤ c ∧ c ≤ 'Z' then Char.ofNat (c.toNat + 32) else c

/-- Python str.lower. -/
def pyLower (s : String) : String := String.mk (s.data.map lowerChar)

/-- Whitespace as recognised by Python str.strip on ASCII text. -/
def isSpaceChar (c : Char) : Bool := c = ' ' ∨ c = '\t' ∨ c = '\n' ∨ c = '\r'

/-- Python str.strip: drop leading and trailing whitespace. -/
def pyStrip (s : String) : String :=
  String.mk (((s.data.dropWhile isSpaceChar).reverse.dropWhile isSpaceChar).reverse)

/-- Literal (non-regex) substring test, as the Python in operator and
pandas str.contains with regex=False. -/
def listInfix (p : List Char) : List Char → Bool
  | [] => p.isEmpty
  | c :: t => p.isPrefixOf (c :: t) || listInfix p t

/-- One character of the regex class A-Za-z0-9-_ used in extract_sheet_id. -/
def isIdChar (c : Char) : Bool :=
  decide (('A' ≤ c ∧ c ≤ 'Z') ∨ ('a' ≤ c ∧ c ≤ 'z') ∨
    ('0' ≤ c ∧ c ≤ '9') ∨ c = '-' ∨ c = '_')

/-- re.fullmatch of the pattern of id characters repeated at least 20
times, from app.py line 32. -/
def isIdShaped (s : String) : Bool :=
  decide (20 ≤ s.data.length) && s.data.all isIdChar

/-- The literal part of the URL pattern of app.py line 35. -/
def spreadMarker : List Char := "/spreadsheets/d/".data

/-- re.search of the URL pattern: at the leftmost position where the
literal marker is followed by at least one id character, capture the
maximal run of id characters; otherwise keep scanning. -/
def searchSpread : List Char → Option (List Char)
  | [] => none
  | c :: t =>
    if spreadMarker.isPrefixOf (c :: t) then
      let cap := ((c :: t).drop spreadMarker.length).takeWhile isIdChar
      if cap.isEmpty then searchSpread t else some cap
    else searchSpread t

/-- app.py lines 25-36: accept a full Google Sheet URL or a bare sheet id
and return the id. -/
def extract_sheet_id (url_or_id : String) : String :=
  if url_or_id = "" then ""
  else if isIdShaped url_or_id then url_or_id
  else
    match searchSpread url_or_id.data with
    | some cap => String.mk cap
    | none => url_or_id

/-- Column-name canonicalisation c.strip().lower() of app.py line 43. -/
def pyColName (c : String) : String := pyLower (pyStrip c)

/-- app.py lines 38-44: copy the frame and rename every column to its
stripped lower-cased form.  Rows and index are untouched. -/
def normalize_columns (df : DF) : DF :=
  { cols := df.cols.map pyColName, rows := df.rows }

/-- pandas astype(str) as applied in app.py lines 220-221: a copy in which
every cell is replaced by its Python string representation. -/
def astypeStr (df : DF) : DF :=
  { cols := df.cols,
    rows := df.rows.map (fun r => (r.1, r.2.map (fun v => Value.vstr (pyStr v)))) }

/-- One step of ensure_cols: df[c] = "" appends column c holding the empty
string in every existing row. -/
def addCol (df : DF) (c : String) : DF :=
  { cols := df.cols ++ [c],
    rows := df.rows.map (fun r => (r.1, r.2 ++ [Value.vstr ""])) }

/-- app.py lines 46-53: for each expected column not present, append it
filled with the empty string.  The Python loop mutates df in place; the
store-level wrapper ensure_cols_st records that. -/
def ensure_cols (df : DF) (cols : List String) : DF :=
  cols.foldl (fun df c => if df.cols.contains c then df else addCol df c) df

/-- The columns ensure_cols appends, in order: the required names not
already present, each becoming present for the names after it. -/
def missingCols (present : List String) : List String → List String
  | [] => []
  | c :: rest =>
    if present.contains c then missingCols present rest
    else c :: missingCols (present ++ [c]) rest

/-- Reading cell c of a row, given the frame's column list (the filter
functions only apply this to columns that are present). -/
def rowVal (cols : List String) (r : List Value) (c : String) : Value :=
  r.getD (cols.indexOf c) (Value.vstr "")

/-- pandas Series.isin against the list of allowed strings: non-string
cells never equal a string choice. -/
def vIsin (v : Value) (allowed : List String) : Bool :=
  match v with
  | .vstr s => allowed.contains s
  | _ => false

/-- Case-insensitive literal containment, the semantics of both
str.contains(..., case=False, regex=False) and of lowering pattern and
series before a regex=False contains; non-string cells give NaN which
na=False turns into False. -/
def vContainsCI (v : Value) (patt : String) : Bool :=
  match v with
  | .vstr s => listInfix (pyLower patt).data (pyLower s).data
  | _ => false

/-- Boolean-mask row selection filtered = filtered[mask]: rows whose cells
satisfy the predicate, keeping their index labels. -/
def dfFilter (df : DF) (p : List Value → Bool) : DF :=
  { cols := df.cols, rows := df.rows.filter (fun r => p r.2) }

/-- A guarded filter stage: Python applies the mask only when the criterion
is truthy (non-empty list / non-empty string). -/
def applyIf (b : Bool) (p : List Value → Bool) (df : DF) : DF :=
  if b then dfFilter df p else df

/-- reset_index(drop=True): renumber the index from zero in row order. -/
def reset_index (df : DF) : DF :=
  { cols := df.cols, rows := (df.rows.map Prod.snd).enum }

/-- Mask of app.py line 228. -/
def tipoPred (cols : List String) (ft : List String) (r : List Value) : Bool :=
  vIsin (rowVal cols r "tipo") ft

/-- Mask of app.py line 230. -/
def basePred (cols : List String) (fb : List String) (r : List Value) : Bool :=
  vIsin (rowVal cols r "base_model") fb

/-- Mask of app.py lines 232-234. -/
def estiloPred (cols : List String) (fe : String) (r : List Value) : Bool :=
  vContainsCI (rowVal cols r "estilo_utilizacao") fe

/-- Mask of app.py lines 236-240: the lowered token against nome or notas. -/
def searchPredML (cols : List String) (fs : String) (r : List Value) : Bool :=
  vContainsCI (rowVal cols r "nome") fs || vContainsCI (rowVal cols r "notas") fs

/-- Mask of app.py lines 247-249. -/
def objetivoPred (cols : List String) (fo : String) (r : List Value) : Bool :=
  vContainsCI (rowVal cols r "objetivo") fo

/-- Mask of app.py lines 251-256: the lowered token against nome,
nodes_principais or dependencias. -/
def searchPredWF (cols : List String) (fs : String) (r : List Value) : Bool :=
  vContainsCI (rowVal cols r "nome") fs ||
  vContainsCI (rowVal cols r "nodes_principais") fs ||
  vContainsCI (rowVal cols r "dependencias") fs

/-- app.py lines 225-242: copy, apply each truthy criterion in order, then
reset the index.  The intermediate frames keep the column list of df, so
each mask reads df.cols. -/
def filter_modelos_loras (df : DF) (filtro_tipo filtro_base : List String)
    (filtro_estilo filtro_search : String) : DF :=
  reset_index
    (applyIf (!filtro_search.isEmpty) (searchPredML df.cols filtro_search)
      (applyIf (!filtro_estilo.isEmpty) (estiloPred df.cols filtro_estilo)
        (applyIf (!filtro_base.isEmpty) (basePred df.cols filtro_base)
          (applyIf (!filtro_tipo.isEmpty) (tipoPred df.cols filtro_tipo) df))))

/-- app.py lines 244-258. -/
def filter_workflows (df : DF) (filtro_objetivo filtro_search : String) : DF :=
  reset_index
    (applyIf (!filtro_search.isEmpty) (searchPredWF df.cols filtro_search)
      (applyIf (!filtro_objetivo.isEmpty) (objetivoPred df.cols filtro_objetivo) df))

/-- A store of live DataFrame objects; a Python variable holding a frame is
an index into the store. -/
abbrev Store := List DF

/-- Dereference a frame handle. -/
def dread (s : Store) (i : Nat) : DF := s.getD i DF.empty

/-- normalize_columns(df).astype(str) as executed on an object df living
in the store (app.py lines 220-221): each step allocates a fresh frame,
the argument object is never written. -/
def normalize_pipeline_st (s : Store) (i : Nat) : Store × Nat :=
  let s1 := s ++ [normalize_columns (dread s i)]
  (s1 ++ [astypeStr (dread s1 s.length)], s1.length)

/-- ensure_cols on a stored frame: df[c] = "" writes the argument object
itself, and the function returns that same object (app.py lines 46-53). -/
def ensure_cols_st (s : Store) (i : Nat) (cols : List String) : Store × Nat :=
  (s.set i (ensure_cols (dread s i) cols), i)

/-- filter_modelos_loras on a stored frame: df.copy() and every mask
application allocate fresh frames, the argument object is never written;
the handle returned is the freshly allocated result. -/
def filter_modelos_loras_st (s : Store) (i : Nat) (ft fb : List String)
    (fe fs : String) : Store × Nat :=
  (s ++ [filter_modelos_loras (dread s i) ft fb fe fs], s.length)

/-- filter_workflows on a stored frame, as filter_modelos_loras_st. -/
def filter_workflows_st (s : Store) (i : Nat) (fo fs : String) : Store × Nat :=
  (s ++ [filter_workflows (dread s i) fo fs], s.length)

/-- A service-account credential mapping (field name to field value). -/
abbrev CredDict := List (String × String)

/-- The ambient world of get_google_client (app.py lines 107-166):
whether st.secrets has a gcp_service_account entry, what materialising it
does (ok or raise), the raw GOOGLE_CREDENTIALS environment string, what
json.loads of it does, and what the gspread authorize step yields (none
models a raised authentication error). -/
structure AuthEnv where
  hasGcp : Bool
  secretRead : Except String CredDict
  envRaw : String
  envParse : Except String CredDict
  authorize : CredDict → Option Unit

/-- Python truthiness of the credentials_dict variable: None and the empty
dict are falsy. -/
def pyTruthyDict : Option CredDict → Bool
  | some l => !l.isEmpty
  | none => false

/-- app.py lines 129-135: the environment fallback sets credentials_dict
only when the variable is non-blank and json.loads does not raise. -/
def readEnvCreds (env : AuthEnv) : Option CredDict :=
  if (pyStrip env.envRaw).isEmpty then none
  else
    match env.envParse with
    | .ok d => some d
    | .error _ => none

/-- app.py lines 107-166: try the secrets entry (an exception while
reading it returns None at once), fall back to the environment variable
only while credentials_dict is still falsy, then authorize. -/
def get_google_client (env : AuthEnv) : Option Unit :=
  if env.hasGcp then
    match env.secretRead with
    | .error _ => none
    | .ok d =>
      let cd := if pyTruthyDict (some d) then some d else readEnvCreds env
      if pyTruthyDict cd then env.authorize (cd.getD []) else none
  else
    let cd := readEnvCreds env
    if pyTruthyDict cd then env.authorize (cd.getD []) else none

/-- A worksheet: get_all_records either raises or delivers rows, modelled
as the resulting raw frame (index already 0,1,...). -/
structure Worksheet where
  records : Except String DF

/-- A spreadsheet: its named worksheets; sh.worksheet(name) raises when
the name is absent. -/
structure Spreadsheet where
  worksheets : List (String × Worksheet)

/-- gspread worksheet lookup by title. -/
def Spreadsheet.worksheet (sh : Spreadsheet) (nm : String) : Option Worksheet :=
  sh.worksheets.lookup nm

/-- The ambient world of load_sheet: the authentication world plus
client.open_by_key, which either raises or yields a spreadsheet. -/
structure SheetEnv where
  auth : AuthEnv
  openByKey : String → Except String Spreadsheet

/-- app.py lines 168-223: resolve the id, authenticate, open, locate both
worksheets, read both row sets, then normalize; every failure returns two
empty frames and a message naming the stage. -/
def load_sheet (env : SheetEnv) (sheet_url_or_id : String) : DF × DF × Option String :=
  let sheet_id := extract_sheet_id sheet_url_or_id
  match get_google_client env.auth with
  | none => (DF.empty, DF.empty, some "Falha na autenticacao (veja mensagens acima)")
  | some _ =>
    match env.openByKey sheet_id with
    | .error e =>
      (DF.empty, DF.empty, some ("Falha ao abrir Sheet (ID: " ++ sheet_id ++ "): " ++ e))
    | .ok sh =>
      match sh.worksheet "modelos_loras" with
      | none => (DF.empty, DF.empty, some "Folha modelos_loras nao encontrada")
      | some ws_ml =>
        match sh.worksheet "workflows" with
        | none => (DF.empty, DF.empty, some "Folha workflows nao encontrada")
        | some ws_wf =>
          match ws_ml.records, ws_wf.records with
          | .ok df_ml, .ok df_wf =>
            (astypeStr (normalize_columns df_ml), astypeStr (normalize_columns df_wf), none)
          | .error _, _ => (DF.empty, DF.empty, some "Erro ao ler dados do Sheet")
          | _, .error _ => (DF.empty, DF.empty, some "Erro ao ler dados do Sheet")

/-- The two-row assets table of the scenario in the spec. -/
def dfScenario : DF :=
  ⟨["tipo", "nome", "base_model", "notas"],
   [(0, [Value.vstr "LoRA", Value.vstr "Realistic Portrait",
         Value.vstr "SDXL", Value.vstr "soft light"]),
    (1, [Value.vstr "Modelo", Value.vstr "Anime Base",
         Value.vstr "SD 1.5", Value.vstr ""])]⟩

/-- The first scenario row alone, as row 0 of a filtered view. -/
def dfScenarioFirst : DF :=
  ⟨["tipo", "nome", "base_model", "notas"],
   [(0, [Value.vstr "LoRA", Value.vstr "Realistic Portrait",
         Value.vstr "SDXL", Value.vstr "soft light"])]⟩

/-- An authentication world in which the environment variable succeeds. -/
def authOkEnv : AuthEnv :=
  ⟨false, .ok [], "j", .ok [("type", "service_account")], fun _ => some ()⟩

/-- A worksheet with no rows. -/
def wsEmpty : Worksheet := ⟨.ok DF.empty⟩

/-- A spreadsheet having modelos_loras but no workflows worksheet. -/
def shNoWf : Spreadsheet := ⟨[("modelos_loras", wsEmpty)]⟩

/-- A loader world that authenticates and opens shNoWf for every key. -/
def envNoWf : SheetEnv := ⟨authOkEnv, fun _ => .ok shNoWf⟩

/-- An authentication world whose secrets entry exists but raises on read,
while the environment variable would have provided working credentials. -/
def authErrEnv : AuthEnv :=
  ⟨true, .error "boom", "j", .ok [("type", "service_account")], fun _ => some ()⟩

/-- A one-frame store for the store-level witnesses. -/
def storeOne : Store := [⟨[" TiPo "], [(0, [Value.vint 5])]⟩]

/-- A one-frame store whose frame lacks the column b. -/
def storeMissing : Store := [⟨["a"], [(0, [Value.vstr "x"])]⟩]

/-! Helper lemmas about the filter pipeline. -/

lemma applyIf_cols (g : Bool) (p : List Value → Bool) (d : DF) :
    (applyIf g p d).cols = d.cols := by
  cases g <;> simp [applyIf, dfFilter]

lemma reset_index_cols (d : DF) : (reset_index d).cols = d.cols := rfl

lemma map_snd_filter_snd {α β : Type} (l : List (α × β)) (q : β → Bool) :
    (l.filter (fun p => q p.2)).map Prod.snd = (l.map Prod.snd).filter q := by
  induction l with
  | nil => rfl
  | cons a t ih => by_cases h : q a.2 <;> simp [List.filter_cons, h, ih]

lemma reset_reset (x : DF) : reset_index (reset_index x) = reset_index x := by
  simp [reset_index, List.enum_map_snd]

lemma reset_applyIf_reset (g : Bool) (q : List Value → Bool) (x : DF) :
    reset_index (applyIf g q (reset_index x)) = reset_index (applyIf g q x) := by
  cases g
  · simp [applyIf, reset_reset]
  · simp [applyIf, dfFilter, reset_index, map_snd_filter_snd, List.enum_map_snd]

lemma reset_index_fst (x : DF) :
    (reset_index x).rows.map Prod.fst = List.range (reset_index x).rows.length := by
  simp [reset_index, List.enum_map_fst, List.enum_length]

lemma guard_empty_str : (!String.isEmpty "") = false := rfl

lemma guard_empty_list : (!List.isEmpty ([] : List String)) = false := rfl

lemma applyIf_false (p : List Value → Bool) (d : DF) : applyIf false p d = d := rfl

/-- C2: the identifier resolver is a pure total function on strings: the
empty input yields the empty output; an input fully matching the
20-or-more id-character pattern is returned unchanged; otherwise, when
the URL pattern /spreadsheets/d/ followed by id characters occurs, the
captured group is returned; otherwise the input is returned unchanged. -/
theorem extract_sheet_id_spec :
    extract_sheet_id "" = "" ∧
    (∀ s : String, isIdShaped s = true → extract_sheet_id s = s) ∧
    (∀ (s : String) (cap : List Char), isIdShaped s = false →
      searchSpread s.data = some cap → extract_sheet_id s = String.mk cap) ∧
    (∀ s : String, isIdShaped s = false → searchSpread s.data = none →
      extract_sheet_id s = s) := by
  refine ⟨rfl, ?_, ?_, ?_⟩
  · intro s h
    by_cases hne : s = ""
    · subst hne; exact absurd h (by decide)
    · simp [extract_sheet_id, hne, h]
  · intro s cap h1 h2
    by_cases hne : s = ""
    · subst hne; simp [searchSpread] at h2
    · simp [extract_sheet_id, hne, h1, h2]
  · intro s h1 h2
    by_cases hne : s = ""
    · subst hne; rfl
    · simp [extract_sheet_id, hne, h1, h2]

/-- Witness for C2 at a bare 20-character id and at a full URL. -/
theorem extract_sheet_id_spec_witness :
    extract_sheet_id "abcdefghij0123456789" = "abcdefghij0123456789" ∧
    extract_sheet_id "https://docs.google.com/spreadsheets/d/abc123/edit" = "abc123" := by
  constructor
  · exact extract_sheet_id_spec.2.1 _ (by decide)
  · exact (extract_sheet_id_spec.2.2.1 _ "abc123".data (by decide) (by decide)).trans (by decide)

/-- C5: with every criterion empty, both filter pipelines return the input
table's rows in their order, with the index re-sequenced from zero. -/
theorem filter_empty_criteria_spec :
    ∀ df : DF,
      filter_modelos_loras df [] [] "" "" = reset_index df ∧
      filter_workflows df "" "" = reset_index df ∧
      (reset_index df).cols = df.cols ∧
      (reset_index df).rows.map Prod.snd = df.rows.map Prod.snd ∧
      (reset_index df).rows.map Prod.fst = List.range df.rows.length := by
  intro df
  refine ⟨rfl, rfl, rfl, ?_, ?_⟩
  · simp [reset_index, List.enum_map_snd]
  · simp [reset_index, List.enum_map_fst, List.enum_length]

/-- C6: filtering is conjunctive: for each pair of criteria of the same
pipeline, filtering by both at once equals filtering by the first and then
filtering the resulting view by the second. -/
theorem filter_conjunctive_spec :
    (∀ (df : DF) (ft fb : List String), filter_modelos_loras df ft fb "" "" =
      filter_modelos_loras (filter_modelos_loras df ft [] "" "") [] fb "" "") ∧
    (∀ (df : DF) (ft : List String) (fe : String), filter_modelos_loras df ft [] fe "" =
      filter_modelos_loras (filter_modelos_loras df ft [] "" "") [] [] fe "") ∧
    (∀ (df : DF) (ft : List String) (fs : String), filter_modelos_loras df ft [] "" fs =
      filter_modelos_loras (filter_modelos_loras df ft [] "" "") [] [] "" fs) ∧
    (∀ (df : DF) (fb : List String) (fe : String), filter_modelos_loras df [] fb fe "" =
      filter_modelos_loras (filter_modelos_loras df [] fb "" "") [] [] fe "") ∧
    (∀ (df : DF) (fb : List String) (fs : String), filter_modelos_loras df [] fb "" fs =
      filter_modelos_loras (filter_modelos_loras df [] fb "" "") [] [] "" fs) ∧
    (∀ (df : DF) (fe fs : String), filter_modelos_loras df [] [] fe fs =
      filter_modelos_loras (filter_modelos_loras df [] [] fe "") [] [] "" fs) ∧
    (∀ (df : DF) (fo fs : String), filter_workflows df fo fs =
      filter_workflows (filter_workflows df fo "") "" fs) := by
  refine ⟨?_, ?_, ?_, ?_, ?_, ?_, ?_⟩ <;>
    intro df a b <;>
    simp only [filter_modelos_loras, filter_workflows, guard_empty_str, guard_empty_list,
      applyIf_false, applyIf_cols, reset_index_cols] <;>
    exact (reset_applyIf_reset _ _ _).symm

/-- C8: the assets free-text search is a case-insensitive literal
substring match against nome or notas: on the two-row scenario table,
realistic (in any letter case) selects exactly the first row, a token
found only in notas also selects it, and a regex-style pattern that would
match as a regular expression selects nothing because matching is literal. -/
theorem search_scenario_spec :
    filter_modelos_loras dfScenario [] [] "" "realistic" = dfScenarioFirst ∧
    filter_modelos_loras dfScenario [] [] "" "REALISTIC" = dfScenarioFirst ∧
    filter_modelos_loras dfScenario ["LoRA"] [] "" "" = dfScenarioFirst ∧
    filter_modelos_loras dfScenario [] [] "" "light" = dfScenarioFirst ∧
    filter_modelos_loras dfScenario [] [] "" "r.alistic" = DF.mk dfScenario.cols [] := by
  refine ⟨?_, ?_, ?_, ?_, ?_⟩ <;> decide

/-! Helper lemmas about ensure_cols. -/

lemma ensure_cols_char (R : List String) : ∀ df : DF,
    ensure_cols df R = DF.mk (df.cols ++ missingCols df.cols R)
      (df.rows.map (fun r =>
        (r.1, r.2 ++ List.replicate (missingCols df.cols R).length (Value.vstr "")))) := by
  induction R with
  | nil =>
    intro df
    cases df
    simp [ensure_cols, missingCols]
  | cons c rest ih =>
    intro df
    have h1 : ensure_cols df (c :: rest) =
        ensure_cols (if df.cols.contains c then df else addCol df c) rest := rfl
    by_cases h : df.cols.contains c
    · have hm : c ∈ df.cols := List.mem_of_elem_eq_true h
      rw [h1, if_pos h, ih df]
      simp [missingCols, hm]
    · have hm : c ∉ df.cols := fun hmem => h (List.elem_eq_true_of_mem hmem)
      rw [h1, if_neg h, ih (addCol df c)]
      simp [missingCols, hm, addCol, List.map_map, Function.comp,
        List.append_assoc, List.replicate_succ]

lemma mem_missingCols : ∀ (R present : List String) (c : String),
    c ∈ R → c ∈ present ++ missingCols present R := by
  intro R
  induction R with
  | nil => intro present c hc; cases hc
  | cons a rest ih =>
    intro present c hc
    by_cases hp : present.contains a
    · have hma : a ∈ present := List.mem_of_elem_eq_true hp
      rcases List.mem_cons.mp hc with rfl | hr
      · simp [missingCols, hma]
      · simpa [missingCols, hma] using ih present c hr
    · have hma : a ∉ present := fun hmem => hp (List.elem_eq_true_of_mem hmem)
      rcases List.mem_cons.mp hc with rfl | hr
      · simp [missingCols, hma]
      · have h2 : c ∈ present ∨ c = a ∨ c ∈ missingCols (present ++ [a]) rest := by
          simpa [List.mem_append] using ih (present ++ [a]) c hr
        simp [missingCols, hma, List.mem_append, List.mem_cons]
        tauto

lemma missingCols_nil_of_subset : ∀ (R present : List String),
    (∀ c ∈ R, c ∈ present) → missingCols present R = [] := by
  intro R
  induction R with
  | nil => intro present _; rfl
  | cons a rest ih =>
    intro present h
    have ha : a ∈ present := h a (List.mem_cons_self a rest)
    simp [missingCols, ha]
    exact ih present (fun c hc => h c (List.mem_cons_of_mem a hc))

/-- C4: ensure_cols appends, for each required name absent from the table,
a column filled with the empty string in every existing row (existing
columns stay in front, in place, and the index and row count are kept),
after it every required name is present, and it is idempotent. -/
theorem ensure_cols_spec :
    ∀ (df : DF) (R : List String),
      (ensure_cols df R).cols = df.cols ++ missingCols df.cols R ∧
      (ensure_cols df R).rows = df.rows.map
        (fun r => (r.1, r.2 ++ List.replicate (missingCols df.cols R).length (Value.vstr ""))) ∧
      (R.all (fun c => (ensure_cols df R).cols.contains c)) = true ∧
      ensure_cols (ensure_cols df R) R = ensure_cols df R := by
  intro df R
  have hchar := ensure_cols_char R df
  refine ⟨by rw [hchar], by rw [hchar], ?_, ?_⟩
  · rw [List.all_eq_true]
    intro c hc
    rw [hchar]
    exact List.elem_eq_true_of_mem (mem_missingCols R df.cols c hc)
  · have hsub : ∀ c ∈ R, c ∈ (ensure_cols df R).cols := by
      intro c hc
      rw [hchar]
      exact mem_missingCols R df.cols c hc
    have hnil : missingCols (ensure_cols df R).cols R = [] :=
      missingCols_nil_of_subset R _ hsub
    have h2 := ensure_cols_char R (ensure_cols df R)
    rw [hnil] at h2
    simpa using h2

/-! Helper lemmas about the store. -/

lemma dread_append_lt (s : Store) (l : List DF) (i : Nat) (h : i < s.length) :
    dread (s ++ l) i = dread s i := by
  simp [dread, List.getD, List.getElem?_append_left h]

lemma dread_append_self (s : Store) (x : DF) : dread (s ++ [x]) s.length = x := by
  simp [dread, List.getD, List.getElem?_append_right (le_refl s.length)]

lemma dread_set_self (s : Store) (i : Nat) (x : DF) (h : i < s.length) :
    dread (s.set i x) i = x := by
  simp [dread, List.getD, List.getElem?_set_self, h]

/-- C3: the column normalizer (normalize_columns followed by astype(str))
is pure: the stored argument frame is untouched, the result is a fresh
object whose column names are the stripped lower-cased input names, whose
cells are the string representations of the input cells, and whose row
count equals the input row count. -/
theorem normalize_columns_spec :
    ∀ (s : Store) (i : Nat), i < s.length →
      dread (normalize_pipeline_st s i).1 i = dread s i ∧
      (normalize_pipeline_st s i).2 ≠ i ∧
      dread (normalize_pipeline_st s i).1 (normalize_pipeline_st s i).2 =
        astypeStr (normalize_columns (dread s i)) ∧
      (astypeStr (normalize_columns (dread s i))).cols = (dread s i).cols.map pyColName ∧
      (astypeStr (normalize_columns (dread s i))).rows =
        (dread s i).rows.map (fun r => (r.1, r.2.map (fun v => Value.vstr (pyStr v)))) ∧
      (astypeStr (normalize_columns (dread s i))).rows.length = (dread s i).rows.length := by
  intro s i h
  refine ⟨?_, ?_, ?_, rfl, rfl, by simp [astypeStr, normalize_columns]⟩
  · simp only [normalize_pipeline_st]
    rw [dread_append_lt _ _ _ (by simp; omega), dread_append_lt _ _ _ h]
  · simp only [normalize_pipeline_st, List.length_append, List.length_singleton]
    omega
  · simp only [normalize_pipeline_st]
    rw [dread_append_self, dread_append_self]

/-- C7: the filter pipelines never write the stored source frame: after a
call the argument object is unchanged, the returned handle is a different
object holding the filtered view, and the view's row index is
re-sequenced from zero. -/
theorem filter_no_mutation_spec :
    ∀ (s : Store) (i : Nat) (ft fb : List String) (fe fs fo fs2 : String), i < s.length →
      dread (filter_modelos_loras_st s i ft fb fe fs).1 i = dread s i ∧
      (filter_modelos_loras_st s i ft fb fe fs).2 ≠ i ∧
      dread (filter_modelos_loras_st s i ft fb fe fs).1
          (filter_modelos_loras_st s i ft fb fe fs).2 =
        filter_modelos_loras (dread s i) ft fb fe fs ∧
      (filter_modelos_loras (dread s i) ft fb fe fs).rows.map Prod.fst =
        List.range (filter_modelos_loras (dread s i) ft fb fe fs).rows.length ∧
      dread (filter_workflows_st s i fo fs2).1 i = dread s i ∧
      (filter_workflows_st s i fo fs2).2 ≠ i ∧
      dread (filter_workflows_st s i fo fs2).1 (filter_workflows_st s i fo fs2).2 =
        filter_workflows (dread s i) fo fs2 ∧
      (filter_workflows (dread s i) fo fs2).rows.map Prod.fst =
        List.range (filter_workflows (dread s i) fo fs2).rows.length := by
  intro s i ft fb fe fs fo fs2 h
  refine ⟨dread_append_lt s _ i h, by simp [filter_modelos_loras_st]; omega,
    dread_append_self s _, ?_,
    dread_append_lt s _ i h, by simp [filter_workflows_st]; omega,
    dread_append_self s _, ?_⟩
  · simp only [filter_modelos_loras]
    exact reset_index_fst _
  · simp only [filter_workflows]
    exact reset_index_fst _

/-- C9: ensure_cols writes its argument object in place and returns that
same object: the returned handle is the input handle, the stored frame at
that handle now holds the enforced schema, and when at least one required
column was absent the stored frame differs from the frame before the call. -/
theorem ensure_cols_mutation_spec :
    ∀ (s : Store) (i : Nat) (R : List String), i < s.length →
      (ensure_cols_st s i R).2 = i ∧
      (ensure_cols_st s i R).1 = s.set i (ensure_cols (dread s i) R) ∧
      dread (ensure_cols_st s i R).1 i = ensure_cols (dread s i) R ∧
      ((missingCols (dread s i).cols R).isEmpty = false →
        dread (ensure_cols_st s i R).1 i ≠ dread s i) := by
  intro s i R h
  refine ⟨rfl, rfl, dread_set_self s i _ h, ?_⟩
  intro hne heq
  simp only [ensure_cols_st] at heq
  rw [dread_set_self s i _ h] at heq
  have h4 := ensure_cols_char R (dread s i)
  rw [heq] at h4
  have h5 := congrArg (fun d => d.cols.length) h4
  simp only [List.length_append] at h5
  have h6 : (missingCols (dread s i).cols R).length = 0 := by omega
  rw [List.length_eq_zero.mp h6] at hne
  simp at hne

/-- C10: when the secrets store has a gcp_service_account entry whose read
raises, credential resolution returns None at once and the environment
fallback is never able to rescue it; the environment variable decides the
outcome exactly when the entry is absent or materializes to an empty
mapping without raising, and a non-empty secrets bundle goes straight to
authorization. -/
theorem get_google_client_fallback_spec :
    (∀ (env : AuthEnv) (e : String), env.hasGcp = true →
      env.secretRead = Except.error e → get_google_client env = none) ∧
    (∀ (env : AuthEnv) (d : CredDict), env.hasGcp = true →
      env.secretRead = Except.ok d → d.isEmpty = false →
      get_google_client env = env.authorize d) ∧
    (∀ env : AuthEnv, env.hasGcp = false →
      get_google_client env =
        match readEnvCreds env with
        | some d => if d.isEmpty then none else env.authorize d
        | none => none) ∧
    (∀ env : AuthEnv, env.hasGcp = true → env.secretRead = Except.ok [] →
      get_google_client env =
        match readEnvCreds env with
        | some d => if d.isEmpty then none else env.authorize d
        | none => none) := by
  refine ⟨?_, ?_, ?_, ?_⟩
  · intro env e h1 h2
    simp [get_google_client, h1, h2]
  · intro env d h1 h2 h3
    simp [get_google_client, h1, h2, pyTruthyDict, h3]
  · intro env h1
    rcases hr : readEnvCreds env with _ | d
    · simp [get_google_client, h1, hr, pyTruthyDict]
    · by_cases hd : d.isEmpty <;> simp [get_google_client, h1, hr, pyTruthyDict, hd]
  · intro env h1 h2
    rcases hr : readEnvCreds env with _ | d
    · simp [get_google_client, h1, h2, hr, pyTruthyDict]
    · by_cases hd : d.isEmpty <;> simp [get_google_client, h1, h2, hr, pyTruthyDict, hd]

/-- C1: every failing stage of the loader (no authenticated client, open
failure, either required worksheet missing, row-read failure) returns two
empty frames together with a message, and a successful load returns no
message; in particular a missing workflows worksheet yields empty frames
and a message naming workflows even though modelos_loras was found. -/
theorem load_sheet_error_spec :
    (∀ (env : SheetEnv) (input : String),
      (load_sheet env input).2.2 = none ∨
      ((load_sheet env input).1 = DF.empty ∧ (load_sheet env input).2.1 = DF.empty ∧
        (load_sheet env input).2.2 ≠ none)) ∧
    (∀ (env : SheetEnv) (input : String) (sh : Spreadsheet) (ws : Worksheet),
      get_google_client env.auth ≠ none →
      env.openByKey (extract_sheet_id input) = Except.ok sh →
      sh.worksheet "modelos_loras" = some ws →
      sh.worksheet "workflows" = none →
      load_sheet env input = (DF.empty, DF.empty, some "Folha workflows nao encontrada") ∧
      listInfix "workflows".data "Folha workflows nao encontrada".data = true) := by
  constructor
  · intro env input
    rcases hgc : get_google_client env.auth with _ | u
    · exact Or.inr (by simp [load_sheet, hgc])
    · rcases hop : env.openByKey (extract_sheet_id input) with e | sh
      · exact Or.inr (by simp [load_sheet, hgc, hop])
      · rcases hml : sh.worksheet "modelos_loras" with _ | ws_ml
        · exact Or.inr (by simp [load_sheet, hgc, hop, hml])
        · rcases hwf : sh.worksheet "workflows" with _ | ws_wf
          · exact Or.inr (by simp [load_sheet, hgc, hop, hml, hwf])
          · rcases hr1 : ws_ml.records with e1 | d1
            · exact Or.inr (by simp [load_sheet, hgc, hop, hml, hwf, hr1])
            · rcases hr2 : ws_wf.records with e2 | d2
              · exact Or.inr (by simp [load_sheet, hgc, hop, hml, hwf, hr1, hr2])
              · exact Or.inl (by simp [load_sheet, hgc, hop, hml, hwf, hr1, hr2])
  · intro env input sh ws hgc hop hml hwf
    rcases Option.ne_none_iff_exists.mp hgc with ⟨u, hu⟩
    have hu2 : get_google_client env.auth = some u := hu.symm
    exact ⟨by simp [load_sheet, hu2, hop, hml, hwf], by decide⟩

/-- Witness for C1: a world that authenticates and opens a spreadsheet
having modelos_loras but no workflows worksheet. -/
theorem load_sheet_error_spec_witness :
    load_sheet envNoWf "x" = (DF.empty, DF.empty, some "Folha workflows nao encontrada") :=
  (load_sheet_error_spec.2 envNoWf "x" shNoWf wsEmpty (by decide) rfl rfl rfl).1

/-- Witness for C3 at a one-frame store holding an integer cell and a
column name needing both stripping and lower-casing. -/
theorem normalize_columns_spec_witness :
    dread (normalize_pipeline_st storeOne 0).1 0 = dread storeOne 0 ∧
    dread (normalize_pipeline_st storeOne 0).1 (normalize_pipeline_st storeOne 0).2 =
      astypeStr (normalize_columns (dread storeOne 0)) ∧
    astypeStr (normalize_columns (dread storeOne 0)) =
      DF.mk ["tipo"] [(0, [Value.vstr "5"])] := by
  have h := normalize_columns_spec storeOne 0 (by decide)
  exact ⟨h.1, h.2.2.1, by decide⟩

/-- Witness for C7 at a one-frame store. -/
theorem filter_no_mutation_spec_witness :
    dread (filter_modelos_loras_st storeOne 0 [] [] "" "").1 0 = dread storeOne 0 ∧
    (filter_modelos_loras_st storeOne 0 [] [] "" "").2 ≠ 0 ∧
    dread (filter_workflows_st storeOne 0 "" "").1 0 = dread storeOne 0 := by
  have h := filter_no_mutation_spec storeOne 0 [] [] "" "" "" "" (by decide)
  exact ⟨h.1, h.2.1, h.2.2.2.2.1⟩

/-- Witness for C9: a frame lacking the required column b is changed in
place by ensure_cols, under its own handle. -/
theorem ensure_cols_mutation_spec_witness :
    (ensure_cols_st storeMissing 0 ["a", "b"]).2 = 0 ∧
    dread (ensure_cols_st storeMissing 0 ["a", "b"]).1 0 ≠ dread storeMissing 0 := by
  have h := ensure_cols_mutation_spec storeMissing 0 ["a", "b"] (by decide)
  exact ⟨h.1, h.2.2.2 (by decide)⟩

/-- Witness for C10: the secrets entry raises on read, so resolution is
None even though the environment variable held working credentials. -/
theorem get_google_client_fallback_spec_witness :
    get_google_client authErrEnv = none :=
  get_google_client_fallback_spec.1 authErrEnv "boom" rfl rfl
